import Mathlib

/-!
Verification of the PDF newsletter extraction helpers
(src/helpers/pdf/index.ts) against their specification.

The embedding models the pure logic of the module: axis-aligned
rectangles over the rationals, the document-to-pixel coordinate mapper,
the rectangle-based text extractor, the rasterizer crop pipeline
(canvases modelled as sized pixel functions), issue-number parsing and
slug derivation.  JavaScript numbers are modelled as rationals, absent
object fields as Option values, and JavaScript string operations by
their Lean counterparts on the same character sequences.
-/

namespace PdfHelpers

/-- The Rect interface of the module: position and size in one
coordinate space (document units or pixels, depending on use). -/
structure Rect where
  height : ℚ
  width : ℚ
  x : ℚ
  y : ℚ
  deriving Repr, DecidableEq

/-- COVER_IMAGE_RECT, the module-level crop constant. -/
def COVER_IMAGE_RECT : Rect :=
  { height := 1201, width := 1068, x := 60, y := 333 }

/-- A viewport as produced by page.getViewport: pixel width and height
together with the scale that produced them. -/
structure Viewport where
  width : ℚ
  height : ℚ
  scale : ℚ
  deriving Repr, DecidableEq

/-- One item of a page text content stream: either a text item
(str, transform origin, optional width and height — absent fields are
defaulted to 0 by the code) or a marked-content marker, which has no
str field. -/
inductive ContentItem where
  | textItem (str : String) (tx ty : ℚ) (width height : Option ℚ)
  | markedContent
  deriving Repr, DecidableEq

/-- A page: its document-space width and height, plus its text content
items in native enumeration order. -/
structure Page where
  width : ℚ
  height : ℚ
  items : List ContentItem
  deriving Repr, DecidableEq

/-- page.getViewport with a scale: pixel dimensions are the document
dimensions multiplied by the scale. -/
def Page.getViewport (page : Page) (scale : ℚ) : Viewport :=
  { width := page.width * scale, height := page.height * scale, scale := scale }

/-- rectIntersects: strict open-interval overlap on both axes. -/
def rectIntersects (rect1 rect2 : Rect) : Bool :=
  decide (rect1.x < rect2.x + rect2.width) &&
  decide (rect1.x + rect1.width > rect2.x) &&
  decide (rect1.y < rect2.y + rect2.height) &&
  decide (rect1.y + rect1.height > rect2.y)

/-- The pdfRectToPixelRect closure of getTextInRect, lifted to take the
viewport it closes over: converts a document-space rectangle to pixel
space (scale the coordinates, flip the y axis, then shift y up by the
pixel height so the top-left corner anchors the box). -/
def pdfRectToPixelRect (viewport : Viewport) (pdfRect : Rect) : Rect :=
  let pixelX := pdfRect.x * viewport.scale
  let pixelY := (viewport.height / viewport.scale - pdfRect.y) * viewport.scale
  let pixelWidth := pdfRect.width * viewport.scale
  let pixelHeight := pdfRect.height * viewport.scale
  { height := pixelHeight
    width := pixelWidth
    x := pixelX
    y := pixelY - pixelHeight }

/-- The filter predicate of getTextInRect: marked content is dropped; a
text item keeps the defaulted width/height, is dropped when its height
is 0, and otherwise is kept iff its pixel-space box intersects the
target rectangle (which is used as given, not mapped). -/
def keepItem (viewport : Viewport) (rect : Rect) : ContentItem → Bool
  | ContentItem.textItem _ tx ty w h =>
      let x := tx
      let y := ty
      let width := w.getD 0
      let height := h.getD 0
      if height = 0 then
        false
      else
        rectIntersects (pdfRectToPixelRect viewport { height := height, width := width, x := x, y := y }) rect
  | ContentItem.markedContent => false

/-- The map step of getTextInRect: a text item contributes its str, any
other item the empty string. -/
def itemStr : ContentItem → String
  | ContentItem.textItem s _ _ _ _ => s
  | ContentItem.markedContent => ""

/-- getTextInRect: build the scale-2 viewport, keep the text items whose
pixel-space box intersects the target rectangle, and join their strings
with single spaces in source order. -/
def getTextInRect (page : Page) (rect : Rect) : String :=
  let viewport := page.getViewport 2
  String.intercalate " " ((page.items.filter (keepItem viewport rect)).map itemStr)

/-- The filter predicate as the spec of claim C1 words it: the target
rectangle is itself mapped once into pixel space through the coordinate
mapper before the intersection test.  This definition follows the spec,
not the code, for comparison with keepItem. -/
def keepItemSpecC1 (viewport : Viewport) (rect : Rect) : ContentItem → Bool
  | ContentItem.textItem _ tx ty w h =>
      let width := w.getD 0
      let height := h.getD 0
      if height = 0 then
        false
      else
        rectIntersects
          (pdfRectToPixelRect viewport { height := height, width := width, x := tx, y := ty })
          (pdfRectToPixelRect viewport rect)
  | ContentItem.markedContent => false

/-- The extractor as the spec of claim C1 words it: the space-joined
concatenation, in source order, of the text fragments whose pixel-space
box intersects the pixel-space image of the target rectangle.  Follows
the spec, not the code. -/
def getTextInRectSpecC1 (page : Page) (rect : Rect) : String :=
  let viewport := page.getViewport 2
  String.intercalate " " ((page.items.filter (keepItemSpecC1 viewport rect)).map itemStr)

/-- Amended extractor specification, written independently of the
filter/map pipeline: walk the items in source order and collect the str
of every text item that has nonzero defaulted height and whose
pixel-space box intersects the target rectangle taken as supplied
(interpreted directly in pixel space, without mapping it). -/
def collectFragments (viewport : Viewport) (rect : Rect) : List ContentItem → List String
  | [] => []
  | ContentItem.markedContent :: rest => collectFragments viewport rect rest
  | ContentItem.textItem s tx ty w h :: rest =>
      if h.getD 0 ≠ 0 ∧
          rectIntersects
            (pdfRectToPixelRect viewport
              { height := h.getD 0, width := w.getD 0, x := tx, y := ty })
            rect = true then
        s :: collectFragments viewport rect rest
      else
        collectFragments viewport rect rest

/-! ## Rasterizer (renderPageToImage, cropCanvas)

A canvas is modelled as its pixel dimensions together with a pixel
lookup function; what the underlying library paints onto the canvas
when the page is rendered is abstracted as a raster function passed in
as a parameter. -/

/-- A canvas: pixel dimensions and the colour at each pixel position. -/
structure Canvas where
  width : ℚ
  height : ℚ
  pixelAt : ℚ → ℚ → ℚ

/-- createCanvas: a blank canvas of the given dimensions. -/
def createCanvas (w h : ℚ) : Canvas :=
  { width := w, height := h, pixelAt := fun _ _ => 0 }

/-- page.render painting onto a canvas, abstracted: the canvas keeps
its dimensions and takes its pixels from the raster function. -/
def renderOnto (raster : ℚ → ℚ → ℚ) (canvas : Canvas) : Canvas :=
  { canvas with pixelAt := raster }

/-- cropCanvas: a new canvas with the dimensions of the crop rectangle
whose pixel at (dx, dy) is the source pixel at the crop origin plus
(dx, dy) — the drawImage call copying the crop region to the origin of
the new canvas. -/
def cropCanvas (sourceCanvas : Canvas) (cropRect : Rect) : Canvas :=
  let croppedCanvas := createCanvas cropRect.width cropRect.height
  { croppedCanvas with
    pixelAt := fun dx dy => sourceCanvas.pixelAt (cropRect.x + dx) (cropRect.y + dy) }

/-- A JPEG buffer: the encoded canvas and the quality argument of
toBuffer. -/
structure JpegBuffer where
  canvas : Canvas
  quality : ℕ

/-- renderPageToImage: render the page at scale 2 onto a fresh canvas;
when a crop rectangle is supplied, crop the canvas — the code passes
COVER_IMAGE_RECT to cropCanvas, not the supplied rectangle — and encode
as JPEG at quality 60. -/
def renderPageToImage (raster : ℚ → ℚ → ℚ) (page : Page) (cropRect : Option Rect) :
    JpegBuffer :=
  let viewport := page.getViewport 2
  let canvas := renderOnto raster (createCanvas viewport.width viewport.height)
  match cropRect with
  | some _ => { canvas := cropCanvas canvas COVER_IMAGE_RECT, quality := 60 }
  | none => { canvas := canvas, quality := 60 }

/-! ## Issue-number parsing and slug derivation -/

/-- The split of a JavaScript string on the space separator, as
issueText.split produces it: split the character sequence on every
space character.  (List.splitOn matches the JavaScript single-character
split exactly, including empty pieces for doubled or leading and
trailing separators.) -/
def jsSplitOnSpace (s : String) : List String :=
  (s.toList.splitOn ' ').map (fun cs => String.mk cs)

/-- Value of a decimal digit character, none for any other
character. -/
def digitVal (c : Char) : Option Nat :=
  if c.toNat ≥ 48 ∧ c.toNat ≤ 57 then some (c.toNat - 48) else none

/-- Decimal reading of a character list: some value when the list is a
nonempty run of digits, none otherwise. -/
def parseNatDigits (cs : List Char) : Option Nat :=
  match cs with
  | [] => none
  | _ :: _ =>
      cs.foldl
        (fun acc c =>
          match acc, digitVal c with
          | some n, some d => some (n * 10 + d)
          | _, _ => none)
        (some 0)

/-- Integer reading of a character list: an optional leading minus sign
followed by a nonempty run of digits. -/
def parseIntToken (cs : List Char) : Option Int :=
  match cs with
  | '-' :: rest => (parseNatDigits rest).map (fun n => -(n : Int))
  | _ => (parseNatDigits cs).map (fun n => (n : Int))

/-- Modelled from the spec: safeParseInt lives in the number helpers
outside the pdf module; per the spec it parses its argument as an
integer issue number and a missing or non-numeric argument degrades to
a null or undefined result, never an error. -/
def safeParseInt (s : Option String) : Option Int :=
  match s with
  | none => none
  | some str => parseIntToken str.toList

/-- issueTextToIssueNumber: take element 1 of the space-split of the
issue text (undefined when there is no second element) and parse it
with safeParseInt. -/
def issueTextToIssueNumber (issueText : String) : Option Int :=
  let issueNumber := (jsSplitOnSpace issueText)[1]?
  safeParseInt issueNumber

/-- A parsed date as processNewsletter consumes it: the result of
parseMonthYear, exposing getFullYear and a zero-based getMonth. -/
structure JsDate where
  fullYear : Int
  monthIndex : Int
  deriving Repr, DecidableEq

/-- Interpolation of the optional-chained call date?.getFullYear() (or
getMonth) into a template literal: undefined prints as the literal
string of the word undefined, a number prints as itself. -/
def interpUndefined (v : Option Int) : String :=
  match v with
  | none => "undefined"
  | some n => toString n

/-- Interpolation of the possibly-null issue number into a template
literal: null prints as the literal string of the word null. -/
def interpNull (v : Option Int) : String :=
  match v with
  | none => "null"
  | some n => toString n

/-- The slug derivation of processNewsletter, over the slugify function
imported from the string helpers (kept abstract as a parameter): apply
slugify to the template string built from the optional parsed date and
the possibly-null issue number. -/
def deriveSlug (slugify : String → String) (date : Option JsDate)
    (issueNumber : Option Int) : String :=
  slugify
    ("newsletter-" ++ interpUndefined (date.map JsDate.fullYear) ++ "-" ++
      interpUndefined (date.map JsDate.monthIndex) ++ "-" ++ interpNull issueNumber)

/-- The artifact file names processNewsletter derives from the slug:
the cover image, one image per requested extra page, the JSON data
file, and the copied PDF. -/
def artifactFileNames (slug : String) (extractPagesToImage : List Nat) : List String :=
  (slug ++ "-cover.jpg") ::
    extractPagesToImage.map (fun n => slug ++ "-page-" ++ toString n ++ ".jpg") ++
    [slug ++ ".json", slug ++ ".pdf"]

/-! ## Helper lemmas -/

/-- Unfolding of the intersection test into its four strict
inequalities. -/
theorem rectIntersects_iff (rect1 rect2 : Rect) :
    rectIntersects rect1 rect2 = true ↔
      (rect1.x < rect2.x + rect2.width ∧ rect2.x < rect1.x + rect1.width ∧
        rect1.y < rect2.y + rect2.height ∧ rect2.y < rect1.y + rect1.height) := by
  simp [rectIntersects, and_assoc, gt_iff_lt]

end PdfHelpers

namespace PdfHelpers

/-- Dropping an item the filter rejects does not change the extracted
text. -/
theorem getTextInRect_drop_item (pw ph : ℚ) (pre post : List ContentItem)
    (item : ContentItem) (rect : Rect)
    (hitem : keepItem { width := pw * 2, height := ph * 2, scale := 2 } rect item = false) :
    getTextInRect { width := pw, height := ph, items := pre ++ item :: post } rect =
      getTextInRect { width := pw, height := ph, items := pre ++ post } rect := by
  simp [getTextInRect, Page.getViewport, List.filter_append, List.filter_cons, hitem]

/-- The filtered-and-mapped text items are exactly the fragments
collected by the direct recursion of collectFragments. -/
theorem filter_map_eq_collectFragments (v : Viewport) (rect : Rect)
    (items : List ContentItem) :
    (items.filter (keepItem v rect)).map itemStr = collectFragments v rect items := by
  induction items with
  | nil => rfl
  | cons head rest ih =>
      cases head with
      | markedContent =>
          simpa [List.filter_cons, keepItem, collectFragments] using ih
      | textItem s tx ty w h =>
          by_cases hz : h.getD 0 = 0
          · simp [List.filter_cons, keepItem, collectFragments, hz, ih]
          · by_cases hint :
                rectIntersects
                    (pdfRectToPixelRect v
                      { height := h.getD 0, width := w.getD 0, x := tx, y := ty })
                    rect = true
            · simp [List.filter_cons, keepItem, collectFragments, hz, hint, itemStr, ih]
            · simp [List.filter_cons, keepItem, collectFragments, hz, hint, itemStr, ih]

/-! ## Claims -/

/-- C1 counterexample: on a concrete page, the fragment hello at
document position (400, 421) with size 10 by 10 is extracted for the
target rectangle at pixel position (795, 820) with size 30 by 30,
because the code compares the target as given; mapping the target once
through the coordinate mapper, as the claim states, would extract
nothing, so the two disagree. -/
theorem getTextInRect_target_mapping_counterexample :
    getTextInRect
        { width := 600, height := 842,
          items := [ContentItem.textItem "hello" 400 421 (some 10) (some 10)] }
        { height := 30, width := 30, x := 795, y := 820 } = "hello" ∧
    getTextInRectSpecC1
        { width := 600, height := 842,
          items := [ContentItem.textItem "hello" 400 421 (some 10) (some 10)] }
        { height := 30, width := 30, x := 795, y := 820 } = "" ∧
    getTextInRect
        { width := 600, height := 842,
          items := [ContentItem.textItem "hello" 400 421 (some 10) (some 10)] }
        { height := 30, width := 30, x := 795, y := 820 } ≠
      getTextInRectSpecC1
        { width := 600, height := 842,
          items := [ContentItem.textItem "hello" 400 421 (some 10) (some 10)] }
        { height := 30, width := 30, x := 795, y := 820 } := by
  have h1 :
      getTextInRect
          { width := 600, height := 842,
            items := [ContentItem.textItem "hello" 400 421 (some 10) (some 10)] }
          { height := 30, width := 30, x := 795, y := 820 } = "hello" := by
    norm_num [getTextInRect, keepItem, pdfRectToPixelRect, rectIntersects,
      Page.getViewport, List.filter, itemStr, String.intercalate]
    try rfl
  have h2 :
      getTextInRectSpecC1
          { width := 600, height := 842,
            items := [ContentItem.textItem "hello" 400 421 (some 10) (some 10)] }
          { height := 30, width := 30, x := 795, y := 820 } = "" := by
    norm_num [getTextInRectSpecC1, keepItemSpecC1, pdfRectToPixelRect, rectIntersects,
      Page.getViewport, List.filter, itemStr, String.intercalate]
    try rfl
  exact ⟨h1, h2, by rw [h1, h2]; decide⟩

/-- C1 (amended): getTextInRect maps each fragment box into pixel space
at the scale-2 viewport but compares it against the target rectangle as
supplied, without mapping the target; it returns the space-joined,
source-order concatenation of exactly those nonzero-height text
fragments whose pixel-space bounding box intersects the supplied
target. -/
theorem getTextInRect_unmapped_target (page : Page) (rect : Rect) :
    getTextInRect page rect =
      String.intercalate " " (collectFragments (page.getViewport 2) rect page.items) := by
  simp only [getTextInRect, filter_map_eq_collectFragments]

/-- C3: for every document-space rectangle and every viewport, the
coordinate mapper scales x, width and height by the scale and sets the
pixel y to the flipped coordinate (viewport height over scale minus
document y, times scale) shifted up by the pixel height. -/
theorem pdfRectToPixelRect_formula (viewport : Viewport) (pdfRect : Rect) :
    pdfRectToPixelRect viewport pdfRect =
      { height := pdfRect.height * viewport.scale
        width := pdfRect.width * viewport.scale
        x := pdfRect.x * viewport.scale
        y := (viewport.height / viewport.scale - pdfRect.y) * viewport.scale -
          pdfRect.height * viewport.scale } := rfl

/-- C5: rectIntersects holds iff each start coordinate is strictly
below the other end coordinate on both axes, and two rectangles that
share only an edge do not intersect. -/
theorem rectIntersects_open_overlap :
    (∀ rect1 rect2 : Rect,
        rectIntersects rect1 rect2 = true ↔
          (rect1.x < rect2.x + rect2.width ∧ rect2.x < rect1.x + rect1.width ∧
            rect1.y < rect2.y + rect2.height ∧ rect2.y < rect1.y + rect1.height)) ∧
    (∀ rect1 rect2 : Rect, rect1.x + rect1.width = rect2.x →
        rectIntersects rect1 rect2 = false) := by
  constructor
  · intro rect1 rect2
    simp [rectIntersects, and_assoc, gt_iff_lt]
  · intro rect1 rect2 hedge
    simp only [rectIntersects, hedge]
    simp

/-- Witness for C5: the unit squares at x = 0 and x = 1 share only an
edge and do not intersect. -/
theorem rectIntersects_open_overlap_witness :
    rectIntersects { height := 1, width := 1, x := 0, y := 0 }
        { height := 1, width := 1, x := 1, y := 0 } = false :=
  rectIntersects_open_overlap.2
    { height := 1, width := 1, x := 0, y := 0 }
    { height := 1, width := 1, x := 1, y := 0 } (by simp)

/-- C7: the intersection test is symmetric. -/
theorem rectIntersects_symm (rect1 rect2 : Rect) :
    rectIntersects rect1 rect2 = rectIntersects rect2 rect1 := by
  rw [Bool.eq_iff_iff, rectIntersects_iff, rectIntersects_iff]
  tauto

/-- C2: whenever renderPageToImage is given a crop rectangle, the
result is the rendered canvas cropped with the COVER_IMAGE_RECT
constant and encoded at quality 60, so every supplied crop rectangle
produces the identical output. -/
theorem renderPageToImage_crop_uses_cover_rect (raster : ℚ → ℚ → ℚ) (page : Page)
    (cropRect : Rect) :
    renderPageToImage raster page (some cropRect) =
      { canvas :=
          cropCanvas
            (renderOnto raster
              (createCanvas (page.getViewport 2).width (page.getViewport 2).height))
            COVER_IMAGE_RECT
        quality := 60 } ∧
    ∀ cropRect2 : Rect,
      renderPageToImage raster page (some cropRect) =
        renderPageToImage raster page (some cropRect2) :=
  ⟨rfl, fun _ => rfl⟩

/-- C4: a text fragment whose defaulted height is 0 never contributes:
for every page, target rectangle and position of the fragment among the
items, the extracted text is the same as if the fragment were absent. -/
theorem zero_height_fragment_excluded (pw ph : ℚ) (rect : Rect)
    (pre post : List ContentItem) (s : String) (tx ty : ℚ) (fw fh : Option ℚ)
    (hh : fh.getD 0 = 0) :
    getTextInRect
        { width := pw, height := ph,
          items := pre ++ ContentItem.textItem s tx ty fw fh :: post } rect =
      getTextInRect { width := pw, height := ph, items := pre ++ post } rect := by
  apply getTextInRect_drop_item
  simp [keepItem, hh]

/-- Witness for C4: a concrete zero-height fragment in the middle of a
concrete page changes nothing. -/
theorem zero_height_fragment_excluded_witness :
    (Option.getD (some (0 : ℚ)) 0 = 0) ∧
    getTextInRect
        { width := 600, height := 842,
          items := [ContentItem.textItem "ghost" 400 421 (some 10) (some 0),
            ContentItem.textItem "body" 400 421 (some 10) (some 10)] }
        { height := 30, width := 30, x := 795, y := 820 } =
      getTextInRect
        { width := 600, height := 842,
          items := [ContentItem.textItem "body" 400 421 (some 10) (some 10)] }
        { height := 30, width := 30, x := 795, y := 820 } :=
  ⟨rfl,
    zero_height_fragment_excluded 600 842 { height := 30, width := 30, x := 795, y := 820 }
      [] [ContentItem.textItem "body" 400 421 (some 10) (some 10)]
      "ghost" 400 421 (some 10) (some 0) rfl⟩

/-- C6 counterexample: the issue text built from the word Issue, a tab
character and the digits 42 has the number 42 as its second
whitespace-delimited token, yet the parser yields none, because the
code splits on the space character only. -/
theorem issueTextToIssueNumber_tab_counterexample :
    issueTextToIssueNumber "Issue\t42" ≠ some 42 ∧
    issueTextToIssueNumber "Issue\t42" = none := by
  constructor
  · decide
  · decide

/-- C6 (amended to space-delimited): issueTextToIssueNumber parses the
second space-delimited token of the issue text as an integer; when that
token is missing or non-numeric the result is none and no error is
raised (the function is total); in particular the text Issue 42 parses
to 42, the single word Issue parses to none, and a non-numeric second
token parses to none. -/
theorem issueTextToIssueNumber_spec :
    (∀ s t1 t2 rest, jsSplitOnSpace s = t1 :: t2 :: rest →
        issueTextToIssueNumber s = parseIntToken t2.toList) ∧
    (∀ s, (jsSplitOnSpace s).length ≤ 1 → issueTextToIssueNumber s = none) ∧
    issueTextToIssueNumber "Issue 42" = some 42 ∧
    issueTextToIssueNumber "Issue" = none ∧
    issueTextToIssueNumber "Issue forty-two" = none := by
  refine ⟨?_, ?_, by decide, by decide, by decide⟩
  · intro s t1 t2 rest hsplit
    simp [issueTextToIssueNumber, hsplit, safeParseInt]
  · intro s hlen
    have hnone : (jsSplitOnSpace s)[1]? = none := by
      rw [List.getElem?_eq_none_iff]
      omega
    simp [issueTextToIssueNumber, hnone, safeParseInt]

/-- Witness for C6: the split of Issue 42 has 42 as second token, the
parse applies to it, and the length-one split of Issue yields none. -/
theorem issueTextToIssueNumber_spec_witness :
    issueTextToIssueNumber "Issue 42" = parseIntToken "42".toList ∧
    issueTextToIssueNumber "Issue" = none :=
  ⟨issueTextToIssueNumber_spec.1 "Issue 42" "Issue" "42" [] (by decide),
    issueTextToIssueNumber_spec.2.1 "Issue" (by decide)⟩

/-- C8: an item of the text content that is not a text item (a
marked-content marker) is excluded regardless of position and
contributes nothing: the extracted text is the same as if it were
absent. -/
theorem marked_content_excluded (pw ph : ℚ) (rect : Rect)
    (pre post : List ContentItem) :
    getTextInRect
        { width := pw, height := ph, items := pre ++ ContentItem.markedContent :: post }
        rect =
      getTextInRect { width := pw, height := ph, items := pre ++ post } rect := by
  apply getTextInRect_drop_item
  simp [keepItem]

/-- C9: a text fragment of defaulted width 0 but positive height is
not disqualified: some target rectangle extracts its text, and for
every target rectangle the fragment is kept exactly when its pixel
origin x lies strictly between the target edges and its vertical
pixel-space span strictly overlaps the target span.  (The viewport is
the scale-2 viewport of the page, so the pixel origin x is twice the
document x and the vertical span ends at the flipped pixel y.) -/
theorem zero_width_fragment_includable (pw ph : ℚ) (s : String) (tx ty : ℚ)
    (fw fh : Option ℚ) (hw : fw.getD 0 = 0) (hh : 0 < fh.getD 0) :
    (∃ rect : Rect,
        getTextInRect
            { width := pw, height := ph, items := [ContentItem.textItem s tx ty fw fh] }
            rect = s) ∧
    (∀ rect : Rect,
        keepItem { width := pw * 2, height := ph * 2, scale := 2 } rect
            (ContentItem.textItem s tx ty fw fh) = true ↔
          (rect.x < tx * 2 ∧ tx * 2 < rect.x + rect.width ∧
            rect.y < (ph * 2 / 2 - ty) * 2 ∧
            (ph * 2 / 2 - ty) * 2 - fh.getD 0 * 2 < rect.y + rect.height)) := by
  have hfh : ¬(fh.getD 0 = 0) := ne_of_gt hh
  have hchar : ∀ rect : Rect,
      keepItem { width := pw * 2, height := ph * 2, scale := 2 } rect
          (ContentItem.textItem s tx ty fw fh) = true ↔
        (rect.x < tx * 2 ∧ tx * 2 < rect.x + rect.width ∧
          rect.y < (ph * 2 / 2 - ty) * 2 ∧
          (ph * 2 / 2 - ty) * 2 - fh.getD 0 * 2 < rect.y + rect.height) := by
    intro rect
    simp only [keepItem, if_neg hfh]
    rw [rectIntersects_iff]
    simp only [pdfRectToPixelRect, hw]
    constructor
    · rintro ⟨h1, h2, h3, h4⟩
      refine ⟨by linarith, by linarith, by linarith, by linarith⟩
    · rintro ⟨h1, h2, h3, h4⟩
      refine ⟨by linarith, by linarith, by linarith, by linarith⟩
  refine ⟨?_, hchar⟩
  refine
    ⟨{ height := fh.getD 0 * 2 + 2, width := 2, x := tx * 2 - 1,
       y := (ph - ty) * 2 - fh.getD 0 * 2 - 1 }, ?_⟩
  have hk :
      keepItem { width := pw * 2, height := ph * 2, scale := 2 }
          { height := fh.getD 0 * 2 + 2, width := 2, x := tx * 2 - 1,
            y := (ph - ty) * 2 - fh.getD 0 * 2 - 1 }
          (ContentItem.textItem s tx ty fw fh) = true := by
    rw [hchar]
    refine ⟨?_, ?_, ?_, ?_⟩ <;> dsimp only <;> linarith
  simp [getTextInRect, Page.getViewport, List.filter, hk, itemStr, String.intercalate]
  rfl

/-- Witness for C9: a zero-width fragment of height 3 at document
position (5, 7) on a 600 by 842 page is extractable, and its keep
condition is the strict between-and-overlap condition. -/
theorem zero_width_fragment_includable_witness :
    (Option.getD (some (0 : ℚ)) 0 = 0) ∧ (0 < Option.getD (some (3 : ℚ)) 0) ∧
    ((∃ rect : Rect,
        getTextInRect
            { width := 600, height := 842,
              items := [ContentItem.textItem "mark" 5 7 (some 0) (some 3)] }
            rect = "mark") ∧
      (∀ rect : Rect,
        keepItem { width := 600 * 2, height := 842 * 2, scale := 2 } rect
            (ContentItem.textItem "mark" 5 7 (some 0) (some 3)) = true ↔
          (rect.x < 5 * 2 ∧ 5 * 2 < rect.x + rect.width ∧
            rect.y < (842 * 2 / 2 - 7) * 2 ∧
            (842 * 2 / 2 - 7) * 2 - Option.getD (some (3 : ℚ)) 0 * 2 <
              rect.y + rect.height))) :=
  ⟨rfl, by decide,
    zero_width_fragment_includable 600 842 "mark" 5 7 (some 0) (some 3) rfl (by decide)⟩

/-- C10: when parseMonthYear yields no date, the slug is slugify
applied to the template with the literal word undefined substituted for
both the year and the month, derivation is total (no error is raised),
and every artifact file name of the document extends this degraded
slug. -/
theorem deriveSlug_unparsed_date (slugify : String → String)
    (issueNumber : Option Int) (extractPagesToImage : List Nat) :
    deriveSlug slugify none issueNumber =
        slugify ("newsletter-undefined-undefined-" ++ interpNull issueNumber) ∧
    ∀ name ∈ artifactFileNames (deriveSlug slugify none issueNumber) extractPagesToImage,
      ∃ tail, name = deriveSlug slugify none issueNumber ++ tail := by
  refine ⟨rfl, ?_⟩
  intro name hname
  unfold artifactFileNames at hname
  rw [List.mem_append, List.mem_cons] at hname
  rcases hname with (h | hname) | hname
  · exact ⟨"-cover.jpg", h⟩
  · rw [List.mem_map] at hname
    obtain ⟨n, _, h⟩ := hname
    exact ⟨"-page-" ++ toString n ++ ".jpg", by rw [← h]; simp [String.append_assoc]⟩
  · rw [List.mem_cons, List.mem_singleton] at hname
    rcases hname with h | h
    · exact ⟨".json", h⟩
    · exact ⟨".pdf", h⟩

/-- Witness for C10: with the identity slugify and issue number 7 the
degraded slug is the undefined-undefined template, and the cover image
name extends it. -/
theorem deriveSlug_unparsed_date_witness :
    deriveSlug id none (some 7) =
        id ("newsletter-undefined-undefined-" ++ interpNull (some 7)) ∧
    ∃ tail,
      deriveSlug id none (some 7) ++ "-cover.jpg" = deriveSlug id none (some 7) ++ tail :=
  ⟨(deriveSlug_unparsed_date id (some 7) []).1,
    (deriveSlug_unparsed_date id (some 7) []).2
      (deriveSlug id none (some 7) ++ "-cover.jpg") (by simp [artifactFileNames])⟩

end PdfHelpers
